import Mathlib

/-!
Verification of the compatibility header src/zsh.h of lincheney/wsh.

The header is a declarations-only C file: type aliases, struct layouts,
file-scope variable declarations and function prototypes, with no function
bodies.  We embed it shallowly as the list of C declarations it contains,
in source order, after preprocessing with ZSH_HEAP_DEBUG undefined.

Two preprocessing facts are reflected in the embedding:
  * the macro mod_export is defined on line 33 as the token sequence
    consisting of the keyword for internal linkage followed by a
    semicolon; the semicolon terminates that keyword as an empty
    declaration, so a declarator written after mod_export carries no
    storage-class specifier and therefore has external linkage.  We embed
    such declarators with storage Storage.auto (no specifier).  The
    variables Meta, Inpar and Outpar carry an additional explicit
    internal-linkage keyword of their own (lines 40-42) and are embedded
    with Storage.intern.
  * a declaration with several declarators (line 119, line 123) is
    embedded as one Decl per declarator, in order.
-/

/-- C types as they appear in the header: primitive types, pointers,
struct-tag references and typedef names. -/
inductive CType where
  | void
  | char
  | uchar
  | int
  | long
  | sizeT
  | uint32
  | ptr (t : CType)
  | structT (tag : String)
  | named (n : String)
  deriving DecidableEq, Repr

/-- C expressions occurring in the header's initializers: integer
literals, a cast to the 8-bit signed character type, and the null
pointer constant. -/
inductive CExpr where
  | intLit (n : Int)
  | castChar (e : CExpr)
  | nullPtr
  deriving DecidableEq, Repr

/-- C statements.  The embedding provides them so that a function body
could be represented; the header contains none. -/
inductive CStmt where
  | exprStmt (e : CExpr)
  | assign (lhs : String) (rhs : CExpr)
  | ret (e : Option CExpr)
  deriving DecidableEq, Repr

/-- Storage-class specifier attached to a file-scope declarator:
either none (external linkage) or the internal-linkage keyword. -/
inductive Storage where
  | auto
  | intern
  deriving DecidableEq, Repr

/-- One struct field: its name and its declared type. -/
structure CField where
  name : String
  type : CType
  deriving DecidableEq, Repr

/-- A file-scope C declaration: a typedef, a struct layout, a variable
declaration (possibly initialized), or a function declaration (a
prototype when the body is none, a definition when it is some). -/
inductive Decl where
  | typedefDecl (name : String) (target : CType)
  | structDecl (tag : String) (fields : List CField)
  | varDecl (storage : Storage) (name : String) (type : CType) (init : Option CExpr)
  | funDecl (storage : Storage) (name : String) (ret : CType)
      (params : List (String × CType)) (body : Option (List CStmt))
  deriving DecidableEq, Repr

/-- CField list of struct cmatch, lines 53-79 of src/zsh.h, in order. -/
def cmatchFields : List CField :=
  [ ⟨"str", .ptr .char⟩
  , ⟨"orig", .ptr .char⟩
  , ⟨"ipre", .ptr .char⟩
  , ⟨"ripre", .ptr .char⟩
  , ⟨"isuf", .ptr .char⟩
  , ⟨"ppre", .ptr .char⟩
  , ⟨"psuf", .ptr .char⟩
  , ⟨"prpre", .ptr .char⟩
  , ⟨"pre", .ptr .char⟩
  , ⟨"suf", .ptr .char⟩
  , ⟨"disp", .ptr .char⟩
  , ⟨"autoq", .ptr .char⟩
  , ⟨"flags", .int⟩
  , ⟨"brpl", .ptr .int⟩
  , ⟨"brsl", .ptr .int⟩
  , ⟨"rems", .ptr .char⟩
  , ⟨"remf", .ptr .char⟩
  , ⟨"qipl", .int⟩
  , ⟨"qisl", .int⟩
  , ⟨"rnum", .int⟩
  , ⟨"gnum", .int⟩
  , ⟨"mode", .named "mode_t"⟩
  , ⟨"modec", .char⟩
  , ⟨"fmode", .named "mode_t"⟩
  , ⟨"fmodec", .char⟩ ]

/-- CField list of struct cmgroup, lines 83-116 of src/zsh.h, in order
(ZSH_HEAP_DEBUG is undefined, so the heap_id field is absent). -/
def cmgroupFields : List CField :=
  [ ⟨"name", .ptr .char⟩
  , ⟨"prev", .named "Cmgroup"⟩
  , ⟨"next", .named "Cmgroup"⟩
  , ⟨"flags", .int⟩
  , ⟨"mcount", .int⟩
  , ⟨"matches", .ptr (.named "Cmatch")⟩
  , ⟨"lcount", .int⟩
  , ⟨"llcount", .int⟩
  , ⟨"ylist", .ptr (.ptr .char)⟩
  , ⟨"ecount", .int⟩
  , ⟨"expls", .ptr (.named "Cexpl")⟩
  , ⟨"ccount", .int⟩
  , ⟨"lexpls", .named "LinkList"⟩
  , ⟨"lmatches", .named "LinkList"⟩
  , ⟨"lfmatches", .named "LinkList"⟩
  , ⟨"lallccs", .named "LinkList"⟩
  , ⟨"num", .int⟩
  , ⟨"nbrbeg", .int⟩
  , ⟨"nbrend", .int⟩
  , ⟨"new", .int⟩
  , ⟨"dcount", .int⟩
  , ⟨"cols", .int⟩
  , ⟨"lins", .int⟩
  , ⟨"width", .int⟩
  , ⟨"widths", .ptr .int⟩
  , ⟨"totl", .int⟩
  , ⟨"shortest", .int⟩
  , ⟨"perm", .named "Cmgroup"⟩ ]

/-- CField list of struct menuinfo, lines 142-153 of src/zsh.h, in order. -/
def menuinfoFields : List CField :=
  [ ⟨"group", .named "Cmgroup"⟩
  , ⟨"cur", .ptr (.named "Cmatch")⟩
  , ⟨"pos", .int⟩
  , ⟨"len", .int⟩
  , ⟨"end", .int⟩
  , ⟨"we", .int⟩
  , ⟨"insc", .int⟩
  , ⟨"asked", .int⟩
  , ⟨"prebr", .ptr .char⟩
  , ⟨"postbr", .ptr .char⟩ ]

/-- The declarations of src/zsh.h, lines 37-162, in source order. -/
def zsh_h : List Decl :=
  [ .typedefDecl "LinkList" .sizeT
  , .typedefDecl "mode_t" .uint32
  , .varDecl .intern "Meta" .uchar (some (.castChar (.intLit 0x83)))
  , .varDecl .intern "Inpar" .uchar (some (.castChar (.intLit 0x88)))
  , .varDecl .intern "Outpar" .uchar (some (.castChar (.intLit 0x8a)))
  , .typedefDecl "Cmatcher" (.ptr (.structT "cmatcher"))
  , .typedefDecl "Cmlist" (.ptr (.structT "cmlist"))
  , .typedefDecl "Cpattern" (.ptr (.structT "cpattern"))
  , .typedefDecl "Menuinfo" (.ptr (.structT "menuinfo"))
  , .typedefDecl "Cexpl" (.ptr (.structT "cexpl"))
  , .typedefDecl "Cmgroup" (.ptr (.structT "cmgroup"))
  , .typedefDecl "Cmatch" (.ptr (.structT "cmatch"))
  , .structDecl "cmatch" cmatchFields
  , .typedefDecl "Cmgroup" (.ptr (.structT "cmgroup"))
  , .structDecl "cmgroup" cmgroupFields
  , .varDecl .auto "matches" (.named "LinkList") none
  , .varDecl .auto "lastmatches" (.named "Cmgroup") none
  , .varDecl .auto "pmatches" (.named "Cmgroup") none
  , .varDecl .auto "amatches" (.named "Cmgroup") none
  , .varDecl .auto "lmatches" (.named "Cmgroup") none
  , .varDecl .auto "lastlmatches" (.named "Cmgroup") none
  , .varDecl .auto "cfargs" (.ptr (.ptr .char)) none
  , .varDecl .auto "cfret" .int none
  , .varDecl .auto "compfunc" (.ptr .char) (some .nullPtr)
  , .varDecl .auto "nbrbeg" .int none
  , .varDecl .auto "nbrend" .int none
  , .funDecl .auto "menucomplete" .int [("args", .ptr (.ptr .char))] none
  , .funDecl .auto "makezleparams" .void [("ro", .int)] none
  , .funDecl .auto "permmatches" .int [("last", .int)] none
  , .funDecl .auto "do_single" .void [("m", .named "Cmatch")] none
  , .funDecl .auto "metafy_line" .void [] none
  , .funDecl .auto "unmetafy_line" .void [] none
  , .structDecl "menuinfo" menuinfoFields
  , .varDecl .auto "minfo" (.structT "menuinfo") none
  , .funDecl .auto "expandhistory" .int [] none
  , .funDecl .auto "set_histno" .void [("pm", .ptr .void), ("x", .long)] none
  , .funDecl .auto "selectkeymap" .int [("name", .ptr .char), ("fb", .int)] none
  , .funDecl .auto "initundo" .void [] none
  , .funDecl .auto "acceptline" .int [] none ]

/-- Predicate: the declaration is a typedef (type alias). -/
def Decl.isTypedef : Decl → Bool
  | .typedefDecl _ _ => true
  | _ => false

/-- Predicate: the declaration is a struct layout. -/
def Decl.isStructLayout : Decl → Bool
  | .structDecl _ _ => true
  | _ => false

/-- Predicate: the declaration is a variable declaration. -/
def Decl.isVar : Decl → Bool
  | .varDecl _ _ _ _ => true
  | _ => false

/-- Predicate: the declaration is a function prototype, i.e. a function
declaration with no body. -/
def Decl.isProto : Decl → Bool
  | .funDecl _ _ _ _ none => true
  | _ => false

/-- Predicate: the declaration is a function definition (carries a body). -/
def Decl.isFunDef : Decl → Bool
  | .funDecl _ _ _ _ (some _) => true
  | _ => false

/-- The executable statements a declaration contributes: the body of a
function definition, nothing otherwise. -/
def Decl.stmts : Decl → List CStmt
  | .funDecl _ _ _ _ (some b) => b
  | _ => []

/-- All executable statements contributed by a list of declarations. -/
def fileStmts (ds : List Decl) : List CStmt :=
  (ds.map Decl.stmts).flatten

/-- The body of a function declaration, none for other declarations. -/
def Decl.funBody : Decl → Option (List CStmt)
  | .funDecl _ _ _ _ b => b
  | _ => none

/-- The initializer of a variable declaration, none for other declarations. -/
def Decl.initExpr : Decl → Option CExpr
  | .varDecl _ _ _ i => i
  | _ => none

/-- The name a declaration introduces (typedef name, struct tag, variable
name, or function name). -/
def Decl.declName : Decl → String
  | .typedefDecl n _ => n
  | .structDecl n _ => n
  | .varDecl _ n _ _ => n
  | .funDecl _ n _ _ _ => n

/-- Target of the first typedef of the given name in the declaration list. -/
def lookupTypedef (ds : List Decl) (n : String) : Option CType :=
  ds.findSome? fun d => match d with
    | .typedefDecl m t => if m == n then some t else none
    | _ => none

/-- Field list of the first struct layout with the given tag. -/
def lookupStruct (ds : List Decl) (tag : String) : Option (List CField) :=
  ds.findSome? fun d => match d with
    | .structDecl t fs => if t == tag then some fs else none
    | _ => none

/-- Declared type of field f of the struct with the given tag. -/
def fieldType (ds : List Decl) (tag f : String) : Option CType :=
  (lookupStruct ds tag).bind fun fs => (fs.find? (fun x => x.name == f)).map (·.type)

/-- One-step resolution of a typedef name to its target type. -/
def resolved (ds : List Decl) : CType → CType
  | .named n => (lookupTypedef ds n).getD (.named n)
  | t => t

/-- Predicate: the type is a plain fixed-width unsigned integer type. -/
def CType.isUnsignedInt : CType → Bool
  | .uchar => true
  | .sizeT => true
  | .uint32 => true
  | _ => false

/-- The first variable declaration of the given name, if any. -/
def lookupVar (ds : List Decl) (n : String) : Option Decl :=
  ds.find? fun d => match d with
    | .varDecl _ m _ _ => m == n
    | _ => false

/-- All function declarations of the given name. -/
def funDeclsNamed (ds : List Decl) (n : String) : List Decl :=
  ds.filter fun d => match d with
    | .funDecl _ m _ _ _ => m == n
    | _ => false

/-- Predicate: a function declaration with no storage-class specifier
(hence external linkage) and no body, i.e. an extern signature. -/
def Decl.isExtSig : Decl → Bool
  | .funDecl .auto _ _ _ none => true
  | _ => false

/-- Wrap an integer value to the range of the 8-bit signed char type,
as a C cast to char does on this target. -/
def wrapChar (n : Int) : Int :=
  ((n + 128) % 256) - 128

/-- Convert an integer value to unsigned char: reduction modulo 2^8. -/
def toUChar (n : Int) : Nat :=
  (n % 256).toNat

/-- Evaluate an initializer for an object of type unsigned char. -/
def evalUCharInit : Option CExpr → Option Nat
  | some (.castChar (.intLit n)) => some (toUChar (wrapChar n))
  | some (.intLit n) => some (toUChar n)
  | _ => none

/-- Predicate: a variable declaration of pointer type with an initializer. -/
def Decl.isPtrInitVar : Decl → Bool
  | .varDecl _ _ (.ptr _) (some _) => true
  | _ => false

/-- The function names declared in src/zsh.h. -/
def zshFunNames : List String :=
  [ "menucomplete", "makezleparams", "permmatches", "do_single"
  , "metafy_line", "unmetafy_line", "expandhistory", "set_histno"
  , "selectkeymap", "initundo", "acceptline" ]

/-- Claim C1: the file contains no algorithm, no control flow, and no
behavior of its own: every declaration in src/zsh.h is a type alias,
struct layout, variable declaration, or function prototype, and no
function body or executable statement appears anywhere in the file. -/
theorem C1_declarations_only :
    zsh_h.all (fun d =>
      d.isTypedef || d.isStructLayout || d.isVar || d.isProto) = true ∧
    zsh_h.all (fun d => !d.isFunDef) = true ∧
    fileStmts zsh_h = [] := by
  refine ⟨by decide, by decide, by decide⟩

/-- Claim C3: struct cmgroup is a doubly-linked list node: its prev and
next fields have its own pointer type Cmgroup (a pointer to struct
cmgroup), and the node carries the matches array together with the
bookkeeping counters mcount, ecount, cols, width and widths. -/
theorem C3_cmgroup_linked_list_node :
    fieldType zsh_h "cmgroup" "prev" = some (.named "Cmgroup") ∧
    fieldType zsh_h "cmgroup" "next" = some (.named "Cmgroup") ∧
    lookupTypedef zsh_h "Cmgroup" = some (.ptr (.structT "cmgroup")) ∧
    fieldType zsh_h "cmgroup" "matches" = some (.ptr (.named "Cmatch")) ∧
    lookupTypedef zsh_h "Cmatch" = some (.ptr (.structT "cmatch")) ∧
    fieldType zsh_h "cmgroup" "mcount" = some .int ∧
    fieldType zsh_h "cmgroup" "ecount" = some .int ∧
    fieldType zsh_h "cmgroup" "cols" = some .int ∧
    fieldType zsh_h "cmgroup" "width" = some .int ∧
    fieldType zsh_h "cmgroup" "widths" = some (.ptr .int) := by
  decide

/-- Claim C4: struct cmatch describes one completion candidate: it
carries the match text str, the fragments ipre, ripre, isuf, ppre, psuf,
prpre, pre and suf, the display string disp (all pointers to char), and
an integer flags field. -/
theorem C4_cmatch_candidate_fields :
    ([ "str", "ipre", "ripre", "isuf", "ppre", "psuf", "prpre"
     , "pre", "suf", "disp" ].all
        (fun f => fieldType zsh_h "cmatch" f == some (.ptr .char))) = true ∧
    fieldType zsh_h "cmatch" "flags" = some .int := by
  refine ⟨by decide, by decide⟩

/-- Claim C5: struct menuinfo records the menu-completion cursor state:
the current group (group, of the group pointer type), the currently
inserted match (cur, a pointer into the match array), the insertion
position pos and length len (integers), and the integer field we, whose
declared role is to be non-zero exactly when the cursor was at the end
of the line. -/
theorem C5_menuinfo_cursor_state :
    fieldType zsh_h "menuinfo" "group" = some (.named "Cmgroup") ∧
    fieldType zsh_h "menuinfo" "cur" = some (.ptr (.named "Cmatch")) ∧
    fieldType zsh_h "menuinfo" "pos" = some .int ∧
    fieldType zsh_h "menuinfo" "len" = some .int ∧
    fieldType zsh_h "menuinfo" "we" = some .int := by
  decide

/-- Claim C6, counterexample: the file is not a flat list consisting
only of type aliases, struct layouts and extern function signatures: the
declaration of the variable compfunc appears in src/zsh.h and is neither
a type alias, nor a struct layout, nor a function signature. -/
theorem C6_counterexample_var_decl :
    Decl.varDecl .auto "compfunc" (.ptr .char) (some .nullPtr) ∈ zsh_h ∧
    (Decl.varDecl .auto "compfunc" (.ptr .char) (some .nullPtr)).isTypedef = false ∧
    (Decl.varDecl .auto "compfunc" (.ptr .char) (some .nullPtr)).isStructLayout = false ∧
    (Decl.varDecl .auto "compfunc" (.ptr .char) (some .nullPtr)).isProto = false := by
  decide

/-- Claim C6 as amended: the file is a flat list of type aliases, struct
layouts, variable declarations and extern function signatures, and every
declared function (menucomplete, makezleparams, permmatches, do_single,
metafy_line, unmetafy_line, expandhistory, set_histno, selectkeymap,
initundo, acceptline) is declared exactly once, as a signature with
external linkage and no definition in this file. -/
theorem C6_functions_are_ext_signatures :
    zsh_h.all (fun d =>
      d.isTypedef || d.isStructLayout || d.isVar || d.isProto) = true ∧
    (zshFunNames.all (fun n =>
      match funDeclsNamed zsh_h n with
      | [d] => d.isExtSig
      | _ => false)) = true := by
  refine ⟨by decide, by decide⟩

/-- Claim C7: no declaration in src/zsh.h defines an error condition:
every function declaration in the file has no body, so no failure
behavior, error result or error branch is expressed by the file itself,
which contributes no executable statement at all. -/
theorem C7_no_error_behavior_expressed :
    zsh_h.all (fun d => d.funBody == none) = true ∧
    fileStmts zsh_h = [] := by
  refine ⟨by decide, by decide⟩

/-- Claim C8: the byte constants Meta, Inpar and Outpar are initialized
with a cast of the literal to char; converting that value back to
unsigned char (value reduction modulo 2^8) yields exactly 0x83, 0x88 and
0x8A respectively; each name is declared exactly once in the file, and
the file contains no statement that could modify them afterwards. -/
theorem C8_meta_byte_constants :
    (lookupVar zsh_h "Meta").map Decl.initExpr
      = some (some (.castChar (.intLit 0x83))) ∧
    (lookupVar zsh_h "Inpar").map Decl.initExpr
      = some (some (.castChar (.intLit 0x88))) ∧
    (lookupVar zsh_h "Outpar").map Decl.initExpr
      = some (some (.castChar (.intLit 0x8a))) ∧
    ((lookupVar zsh_h "Meta").bind fun d => evalUCharInit d.initExpr)
      = some 0x83 ∧
    ((lookupVar zsh_h "Inpar").bind fun d => evalUCharInit d.initExpr)
      = some 0x88 ∧
    ((lookupVar zsh_h "Outpar").bind fun d => evalUCharInit d.initExpr)
      = some 0x8a ∧
    zsh_h.countP (fun d => d.declName == "Meta") = 1 ∧
    zsh_h.countP (fun d => d.declName == "Inpar") = 1 ∧
    zsh_h.countP (fun d => d.declName == "Outpar") = 1 ∧
    fileStmts zsh_h = [] := by
  decide

/-- Claim C9: in this header LinkList is a type alias for size_t and
mode_t is locally redefined as uint32_t, so the cmgroup fields lexpls,
lmatches, lfmatches and lallccs, and the cmatch fields mode and fmode,
resolve to plain fixed-width unsigned integer types rather than
structured list types or the system mode_t. -/
theorem C9_integer_typedef_fields :
    lookupTypedef zsh_h "LinkList" = some .sizeT ∧
    lookupTypedef zsh_h "mode_t" = some .uint32 ∧
    ([ "lexpls", "lmatches", "lfmatches", "lallccs" ].all (fun f =>
      fieldType zsh_h "cmgroup" f == some (.named "LinkList"))) = true ∧
    ([ "mode", "fmode" ].all (fun f =>
      fieldType zsh_h "cmatch" f == some (.named "mode_t"))) = true ∧
    resolved zsh_h (.named "LinkList") = .sizeT ∧
    resolved zsh_h (.named "mode_t") = .uint32 ∧
    CType.isUnsignedInt .sizeT = true ∧
    CType.isUnsignedInt .uint32 = true := by
  decide

/-- Claim C10: compfunc is the only declared global with a pointer
initializer, and it is initialized to NULL: filtering the file for
variable declarations of pointer type carrying an initializer yields
exactly the declaration of compfunc, whose initializer is the null
pointer constant. -/
theorem C10_compfunc_only_ptr_init :
    zsh_h.filter Decl.isPtrInitVar
      = [.varDecl .auto "compfunc" (.ptr .char) (some .nullPtr)] := by
  decide
